import Mathlib

/-!
Verification of the `python3-config-rs` decoder (`src/lib.rs`).

The crate parses the text of a `_sysconfigdata*.py` document with an external
Python parser (`rustpython_parser`) and then decodes the resulting statement
list into a typed record.  The external text-to-AST step is out of scope
(the spec treats the parser as a black box); the embedding therefore works on
the statement list directly.  Every definition below mirrors the Rust source:
AST node types keep only the payloads the decoder ever inspects (a `Float`
payload, for instance, is never read by `get_number`, so the constructor is
payload-free), and the decoder is an explicit fold in the `Except` monad that
mirrors the `?`-propagation of the Rust loop.
-/

namespace PyConfig

/-- Mirrors `rustpython_parser::ast::Number`.  `Integer` carries a `BigInt`
(embedded as unbounded `Int`); `Float` and `Complex` carry payloads that
`get_number` never inspects. -/
inductive Number where
  | integer (value : Int)
  | float
  | complex
deriving DecidableEq, Repr

mutual
/-- Mirrors `rustpython_parser::ast::StringGroup`: a constant fragment, a
formatted (interpolated) fragment carrying an expression, or a joined group
of adjacent fragments. -/
inductive StringGroup where
  | constant (value : String)
  | formattedValue (value : Expression)
  | joined (values : List StringGroup)

/-- Mirrors the `ExpressionType` variants the decoder can meet.  The Rust
enum has many more variants, but every one of them hits the same `_ => ...`
catch-all arms of `get_string` / `get_number` / the decoder, so a
representative set (binary operation, unary operation, `None` literal)
stands for all of them. -/
inductive Expression where
  | identifier (name : String)
  | number (value : Number)
  | str (value : StringGroup)
  | dict (elements : List (Option Expression × Expression))
  | binop (a : Expression) (b : Expression)
  | unop (a : Expression)
  | noneLiteral
end

/-- Mirrors `StatementType`: the decoder only distinguishes `Assign`
statements (with their target list and value) from everything else. -/
inductive Statement where
  | assign (targets : List Expression) (value : Expression)
  | other

/-- Mirrors the crate error enum `Error`.  `SyntaxError` carries the external
parser diagnostic in Rust; since text parsing is out of scope it carries
nothing here. -/
inductive Error where
  | SyntaxError
  | MissingBuildTimeVars
  | KeyError (key : String)
deriving DecidableEq, Repr

/-- Mirrors `struct BuildTimeVars` with its `Default` derive.  `size_of_void_p`
is a `u32` in Rust, embedded as `Nat` (assignments reduce modulo `2 ^ 32`,
mirroring the Rust `as u32` cast).  The Rust field named `prefix` is embedded
as `prefix_` because that word is a reserved keyword in Lean. -/
structure BuildTimeVars where
  abiflags : String := ""
  count_allocs : Bool := false
  cflags : String := ""
  config_dir : String := ""
  ext_suffix : String := ""
  exec_prefix : String := ""
  include_dir : String := ""
  lib_dir : String := ""
  libs : String := ""
  ldflags : String := ""
  ld_version : String := ""
  prefix_ : String := ""
  py_debug : Bool := false
  py_ref_debug : Bool := false
  py_trace_refs : Bool := false
  py_enable_shared : Bool := false
  soabi : String := ""
  shlib_suffix : String := ""
  size_of_void_p : Nat := 0
  with_thread : Bool := false
  version : String := ""
deriving DecidableEq, Repr

/-- `BuildTimeVars::default()`. -/
def BuildTimeVars.default : BuildTimeVars := {}

/-- Mirrors `fn get_string`: a single constant string literal yields its text;
a joined group yields the concatenation, in source order, of the texts of its
constant fragments (non-constant fragments are skipped by the Rust loop);
anything else yields `none`. -/
def getString (expr : Expression) : Option String :=
  match expr with
  | .str sg =>
    match sg with
    | .constant value => some value
    | .joined values =>
      some (values.foldl
        (fun s v =>
          match v with
          | .constant cs => s ++ cs
          | _ => s) "")
    | _ => none
  | _ => none

/-- Mirrors `fn get_number`: only a bare integer literal whose value fits an
`i32` yields a value (`BigInt::to_i32` returns `None` outside the range);
floats, complex literals and every non-number node yield `none`. -/
def getNumber (expr : Expression) : Option Int :=
  match expr with
  | .number value =>
    match value with
    | .integer v => if -(2 ^ 31) ≤ v ∧ v < 2 ^ 31 then some v else none
    | _ => none
  | _ => none

/-- Mirrors `fn get_bool`: `get_number(expr).map(|x| x == 1).unwrap_or(false)`. -/
def getBool (expr : Expression) : Bool :=
  ((getNumber expr).map (fun x => x == 1)).getD false

/-- The `match key.as_str()` block of the dict-entry loop in
`SysConfigData::parse`: given the already classified key text and the raw
value expression, assign the classified value into the record (propagating
`KeyError` for the two required keys) and leave the record unchanged on an
unrecognized key. -/
def dispatchKey (vars : BuildTimeVars) (val : Expression) (key : String) :
    Except Error BuildTimeVars :=
  if key = "ABIFLAGS" then .ok { vars with abiflags := (getString val).getD "" }
  else if key = "COUNT_ALLOCS" then .ok { vars with count_allocs := getBool val }
  else if key = "CFLAGS" then .ok { vars with cflags := (getString val).getD "" }
  else if key = "LIBPL" then .ok { vars with config_dir := (getString val).getD "" }
  else if key = "EXT_SUFFIX" then .ok { vars with ext_suffix := (getString val).getD "" }
  else if key = "exec_prefix" then .ok { vars with exec_prefix := (getString val).getD "" }
  else if key = "INCLUDEDIR" then .ok { vars with include_dir := (getString val).getD "" }
  else if key = "LIBDIR" then .ok { vars with lib_dir := (getString val).getD "" }
  else if key = "LIBS" then .ok { vars with libs := (getString val).getD "" }
  else if key = "LDFLAGS" then .ok { vars with ldflags := (getString val).getD "" }
  else if key = "LDVERSION" then .ok { vars with ld_version := (getString val).getD "" }
  else if key = "prefix" then .ok { vars with prefix_ := (getString val).getD "" }
  else if key = "Py_DEBUG" then .ok { vars with py_debug := getBool val }
  else if key = "Py_ENABLE_SHARED" then .ok { vars with py_enable_shared := getBool val }
  else if key = "Py_REF_DEBUG" then .ok { vars with py_ref_debug := getBool val }
  else if key = "Py_TRACE_REFS" then .ok { vars with py_trace_refs := getBool val }
  else if key = "SOABI" then .ok { vars with soabi := (getString val).getD "" }
  else if key = "SHLIB_SUFFIX" then .ok { vars with shlib_suffix := (getString val).getD "" }
  else if key = "SIZEOF_VOID_P" then
    match getNumber val with
    | some n => .ok { vars with size_of_void_p := (n % (2 ^ 32 : Int)).toNat }
    | none => .error (.KeyError "SIZEOF_VOID_P")
  else if key = "VERSION" then
    match getString val with
    | some s => .ok { vars with version := s }
    | none => .error (.KeyError "VERSION")
  else .ok vars

/-- One iteration of the dict-entry loop in `SysConfigData::parse`: classify
the key with `get_string`; on a classified key dispatch on its text; on a
missing or non-string key leave the record unchanged. -/
def processEntry (vars : BuildTimeVars) (entry : Option Expression × Expression) :
    Except Error BuildTimeVars :=
  match entry.1.bind getString with
  | none => .ok vars
  | some key => dispatchKey vars entry.2 key

/-- The dict-entry loop of `SysConfigData::parse`, with `?`-propagation. -/
def processEntries (vars : BuildTimeVars)
    (elements : List (Option Expression × Expression)) : Except Error BuildTimeVars :=
  match elements with
  | [] => .ok vars
  | e :: rest =>
    match processEntry vars e with
    | .ok v => processEntries v rest
    | .error err => .error err

/-- One iteration of the statement loop of `SysConfigData::parse`:
non-assignments are skipped; an assignment with an empty target list raises
`MissingBuildTimeVars` (the `targets.get(0).ok_or(...)?`); an assignment whose
first target is not the identifier `build_time_vars` is skipped; a matching
assignment whose value is a dict literal has its entries processed; a matching
assignment whose value is not a dict is skipped. -/
def processStmt (vars : BuildTimeVars) (stmt : Statement) : Except Error BuildTimeVars :=
  match stmt with
  | .assign targets value =>
    match targets.head? with
    | none => .error .MissingBuildTimeVars
    | some t =>
      match t with
      | .identifier name =>
        if name = "build_time_vars" then
          match value with
          | .dict elements => processEntries vars elements
          | _ => .ok vars
        else .ok vars
      | _ => .ok vars
  | .other => .ok vars

/-- The statement loop of `SysConfigData::parse`, with `?`-propagation. -/
def processStmts (vars : BuildTimeVars) (stmts : List Statement) :
    Except Error BuildTimeVars :=
  match stmts with
  | [] => .ok vars
  | s :: rest =>
    match processStmt vars s with
    | .ok v => processStmts v rest
    | .error err => .error err

/-- Mirrors `struct SysConfigData`. -/
structure SysConfigData where
  build_time_vars : BuildTimeVars
deriving DecidableEq, Repr

/-- Mirrors `SysConfigData::parse` after the external text parse: scan the
statements from a default record, then fail with `MissingBuildTimeVars` when
`version` was never set. -/
def SysConfigData.parse (stmts : List Statement) : Except Error SysConfigData :=
  match processStmts BuildTimeVars.default stmts with
  | .error err => .error err
  | .ok vars =>
    if vars.version.isEmpty then .error .MissingBuildTimeVars
    else .ok { build_time_vars := vars }

/-- Mirrors `struct PythonConfig`. -/
structure PythonConfig where
  sys_config_data : SysConfigData
deriving DecidableEq, Repr

/-- Mirrors `PythonConfig::parse`. -/
def PythonConfig.parse (stmts : List Statement) : Except Error PythonConfig :=
  match SysConfigData.parse stmts with
  | .ok d => .ok { sys_config_data := d }
  | .error err => .error err

/-- Mirrors `PythonConfig::version`. -/
def PythonConfig.version (c : PythonConfig) : String :=
  c.sys_config_data.build_time_vars.version

/-- Model of Rust `str::parse::<u32>` (`u32::from_str`): an optional leading
plus sign followed by at least one ASCII decimal digit, whose value fits in
32 bits; anything else (empty string, stray characters, overflow) fails. -/
def parseU32 (s : String) : Option Nat :=
  let digits :=
    match s.toList with
    | '+' :: rest => rest
    | cs => cs
  if digits ≠ [] ∧ digits.all Char.isDigit then
    let v := digits.foldl (fun acc c => acc * 10 + (c.toNat - '0'.toNat)) 0
    if v < 2 ^ 32 then some v else none
  else none

/-- Model of Rust `str::split(sep)` on character lists: splitting an empty
input yields one empty segment; a separator starts a fresh segment. -/
def splitSep (sep : Char) (cs : List Char) : List (List Char) :=
  match cs with
  | [] => [[]]
  | c :: rest =>
    if c = sep then [] :: splitSep sep rest
    else
      match splitSep sep rest with
      | s :: ss => (c :: s) :: ss
      | [] => [[c]]

/-- Model of Rust `str::split(sep)` on strings. -/
def splitChar (sep : Char) (s : String) : List String :=
  (splitSep sep s.toList).map (fun cs => String.mk cs)

/-- Mirrors `PythonConfig::version_major`:
`version.split('.').next().and_then(|x| x.parse::<u32>().ok()).unwrap()`.
The trailing `.unwrap()` panics when the chain yields `None`; the panic is
embedded as the `none` result. -/
def PythonConfig.version_major (c : PythonConfig) : Option Nat :=
  ((splitChar '.' c.version).head?).bind parseU32

/-- Mirrors `PythonConfig::version_minor` (second `.`-separated segment,
`split('.').nth(1)`), with the `.unwrap()` panic embedded as `none`. -/
def PythonConfig.version_minor (c : PythonConfig) : Option Nat :=
  (splitChar '.' c.version)[1]?.bind parseU32

/-- The 20 key names recognized by the dict-entry dispatch of
`SysConfigData::parse`. -/
def recognizedKeys : List String :=
  ["ABIFLAGS", "COUNT_ALLOCS", "CFLAGS", "LIBPL", "EXT_SUFFIX", "exec_prefix",
   "INCLUDEDIR", "LIBDIR", "LIBS", "LDFLAGS", "LDVERSION", "prefix",
   "Py_DEBUG", "Py_ENABLE_SHARED", "Py_REF_DEBUG", "Py_TRACE_REFS",
   "SOABI", "SHLIB_SUFFIX", "SIZEOF_VOID_P", "VERSION"]

/-- Statement-level shorthand: an assignment of a dict literal whose first
target is the identifier `build_time_vars` (the only statement shape that
touches the record). -/
def isTargetAssign (s : Statement) : Bool :=
  match s with
  | .assign targets value =>
    match targets.head? with
    | some (.identifier name) =>
      match value with
      | .dict _ => name = "build_time_vars"
      | _ => false
    | _ => false
  | .other => false

/-- Shorthand for a dict entry key literal. -/
def strKey (k : String) : Option Expression := some (.str (.constant k))

/-- Shorthand for an assignment of a dict literal to `build_time_vars`. -/
def btAssign (elements : List (Option Expression × Expression)) : Statement :=
  .assign [.identifier "build_time_vars"] (.dict elements)

/-- A document whose target mapping carries a VERSION entry whose value is
not a string literal. -/
def docVersionNotString : List Statement :=
  [btAssign [(strKey "VERSION", .number (.integer 1))]]

/-- A statement-list document holding a single target mapping with a valid
VERSION entry and no SIZEOF_VOID_P entry. -/
def docVersionOnly : List Statement :=
  [btAssign [(strKey "VERSION", .str (.constant "3.8"))]]

/-- A document with two successive target assignments; the ABIFLAGS key
appears only in the second one. -/
def docReassign : List Statement :=
  [btAssign [(strKey "VERSION", .str (.constant "3.8"))],
   btAssign [(strKey "ABIFLAGS", .str (.constant "m"))]]

/-- A document holding a full decode whose version text has non-numeric
dot-separated segments, plus a valid pointer width. -/
def docVersionAB : List Statement :=
  [btAssign [(strKey "VERSION", .str (.constant "A.B")),
             (strKey "SIZEOF_VOID_P", .number (.integer 8))]]

/-- The record decoded from `docVersionAB`. -/
def cfgVersionAB : PythonConfig :=
  { sys_config_data := { build_time_vars :=
      { BuildTimeVars.default with version := "A.B", size_of_void_p := 8 } } }

/-- A decoded record whose version text is the numeral pair 3.8. -/
def cfgVersion38 : PythonConfig :=
  { sys_config_data := { build_time_vars :=
      { BuildTimeVars.default with version := "3.8" } } }

/-- A `processStmt` step on a dict assignment to `build_time_vars` processes
the dict entries. -/
theorem processStmt_btAssign (vars : BuildTimeVars)
    (l : List (Option Expression × Expression)) :
    processStmt vars (btAssign l) = processEntries vars l := rfl

/-- Evaluation of one entry keyed VERSION. -/
theorem processEntry_version (vars : BuildTimeVars) (val : Expression) :
    processEntry vars (strKey "VERSION", val) =
      match getString val with
      | some s => .ok { vars with version := s }
      | none => .error (.KeyError "VERSION") := rfl

/-- Evaluation of one entry keyed SIZEOF_VOID_P. -/
theorem processEntry_sizeof (vars : BuildTimeVars) (val : Expression) :
    processEntry vars (strKey "SIZEOF_VOID_P", val) =
      match getNumber val with
      | some n => .ok { vars with size_of_void_p := (n % (2 ^ 32 : Int)).toNat }
      | none => .error (.KeyError "SIZEOF_VOID_P") := rfl

/-- A single-statement document with a target assignment decodes through its
entry list and the final version check. -/
theorem parse_single_btAssign (l : List (Option Expression × Expression)) :
    SysConfigData.parse [btAssign l] =
      match processEntries BuildTimeVars.default l with
      | .error err => .error err
      | .ok vars =>
        if vars.version.isEmpty then .error .MissingBuildTimeVars
        else .ok { build_time_vars := vars } := by
  unfold SysConfigData.parse
  simp only [processStmts, processStmt_btAssign]
  cases processEntries BuildTimeVars.default l with
  | ok v => rfl
  | error e => rfl

/-- Processing a concatenation of entry lists processes the first list and,
on success, continues with the second. -/
theorem processEntries_append (vars : BuildTimeVars)
    (l₁ l₂ : List (Option Expression × Expression)) :
    processEntries vars (l₁ ++ l₂) =
      match processEntries vars l₁ with
      | .ok v => processEntries v l₂
      | .error e => .error e := by
  induction l₁ generalizing vars with
  | nil => rfl
  | cons e rest ih =>
    simp only [List.cons_append, processEntries]
    cases processEntry vars e with
    | ok v => exact ih v
    | error err => rfl

/-- Reduction of `processEntry` on an entry without a classified string key. -/
theorem processEntry_none (vars : BuildTimeVars)
    (entry : Option Expression × Expression)
    (hb : entry.1.bind getString = none) : processEntry vars entry = .ok vars := by
  unfold processEntry
  rw [hb]

/-- Reduction of `processEntry` on an entry with a classified string key. -/
theorem processEntry_some (vars : BuildTimeVars)
    (entry : Option Expression × Expression) (k : String)
    (hb : entry.1.bind getString = some k) :
    processEntry vars entry = dispatchKey vars entry.2 k := by
  unfold processEntry
  rw [hb]

/-- A dispatch on an unrecognized key leaves the record unchanged (the final
fallthrough of the key dispatch). -/
theorem dispatchKey_unrec (vars : BuildTimeVars) (val : Expression)
    (k : String) (hk : k ∉ recognizedKeys) : dispatchKey vars val k = .ok vars := by
  have hne : ∀ s, s ∈ recognizedKeys → ¬ k = s := fun s hs he => hk (he ▸ hs)
  unfold dispatchKey
  rw [if_neg (hne "ABIFLAGS" (by decide)), if_neg (hne "COUNT_ALLOCS" (by decide)),
    if_neg (hne "CFLAGS" (by decide)), if_neg (hne "LIBPL" (by decide)),
    if_neg (hne "EXT_SUFFIX" (by decide)), if_neg (hne "exec_prefix" (by decide)),
    if_neg (hne "INCLUDEDIR" (by decide)), if_neg (hne "LIBDIR" (by decide)),
    if_neg (hne "LIBS" (by decide)), if_neg (hne "LDFLAGS" (by decide)),
    if_neg (hne "LDVERSION" (by decide)), if_neg (hne "prefix" (by decide)),
    if_neg (hne "Py_DEBUG" (by decide)), if_neg (hne "Py_ENABLE_SHARED" (by decide)),
    if_neg (hne "Py_REF_DEBUG" (by decide)), if_neg (hne "Py_TRACE_REFS" (by decide)),
    if_neg (hne "SOABI" (by decide)), if_neg (hne "SHLIB_SUFFIX" (by decide)),
    if_neg (hne "SIZEOF_VOID_P" (by decide)), if_neg (hne "VERSION" (by decide))]

/-- Evaluation of the key dispatch at the key ABIFLAGS. -/
theorem dispatchKey_eval_abiflags (vars : BuildTimeVars) (val : Expression) :
    dispatchKey vars val "ABIFLAGS" =
      .ok { vars with abiflags := (getString val).getD "" } := rfl

/-- Evaluation of the key dispatch at the key COUNT_ALLOCS. -/
theorem dispatchKey_eval_count_allocs (vars : BuildTimeVars) (val : Expression) :
    dispatchKey vars val "COUNT_ALLOCS" =
      .ok { vars with count_allocs := getBool val } := rfl

/-- Evaluation of the key dispatch at the key CFLAGS. -/
theorem dispatchKey_eval_cflags (vars : BuildTimeVars) (val : Expression) :
    dispatchKey vars val "CFLAGS" =
      .ok { vars with cflags := (getString val).getD "" } := rfl

/-- Evaluation of the key dispatch at the key LIBPL. -/
theorem dispatchKey_eval_libpl (vars : BuildTimeVars) (val : Expression) :
    dispatchKey vars val "LIBPL" =
      .ok { vars with config_dir := (getString val).getD "" } := rfl

/-- Evaluation of the key dispatch at the key EXT_SUFFIX. -/
theorem dispatchKey_eval_ext_suffix (vars : BuildTimeVars) (val : Expression) :
    dispatchKey vars val "EXT_SUFFIX" =
      .ok { vars with ext_suffix := (getString val).getD "" } := rfl

/-- Evaluation of the key dispatch at the key exec_prefix. -/
theorem dispatchKey_eval_execPre (vars : BuildTimeVars) (val : Expression) :
    dispatchKey vars val "exec_prefix" =
      .ok { vars with exec_prefix := (getString val).getD "" } := rfl

/-- Evaluation of the key dispatch at the key INCLUDEDIR. -/
theorem dispatchKey_eval_includedir (vars : BuildTimeVars) (val : Expression) :
    dispatchKey vars val "INCLUDEDIR" =
      .ok { vars with include_dir := (getString val).getD "" } := rfl

/-- Evaluation of the key dispatch at the key LIBDIR. -/
theorem dispatchKey_eval_libdir (vars : BuildTimeVars) (val : Expression) :
    dispatchKey vars val "LIBDIR" =
      .ok { vars with lib_dir := (getString val).getD "" } := rfl

/-- Evaluation of the key dispatch at the key LIBS. -/
theorem dispatchKey_eval_libs (vars : BuildTimeVars) (val : Expression) :
    dispatchKey vars val "LIBS" =
      .ok { vars with libs := (getString val).getD "" } := rfl

/-- Evaluation of the key dispatch at the key LDFLAGS. -/
theorem dispatchKey_eval_ldflags (vars : BuildTimeVars) (val : Expression) :
    dispatchKey vars val "LDFLAGS" =
      .ok { vars with ldflags := (getString val).getD "" } := rfl

/-- Evaluation of the key dispatch at the key LDVERSION. -/
theorem dispatchKey_eval_ldversion (vars : BuildTimeVars) (val : Expression) :
    dispatchKey vars val "LDVERSION" =
      .ok { vars with ld_version := (getString val).getD "" } := rfl

/-- Evaluation of the key dispatch at the lowercase key naming the
installation prefix path. -/
theorem dispatchKey_eval_pre (vars : BuildTimeVars) (val : Expression) :
    dispatchKey vars val "prefix" =
      .ok { vars with prefix_ := (getString val).getD "" } := rfl

/-- Evaluation of the key dispatch at the key Py_DEBUG. -/
theorem dispatchKey_eval_py_debug (vars : BuildTimeVars) (val : Expression) :
    dispatchKey vars val "Py_DEBUG" =
      .ok { vars with py_debug := getBool val } := rfl

/-- Evaluation of the key dispatch at the key Py_ENABLE_SHARED. -/
theorem dispatchKey_eval_py_enable_shared (vars : BuildTimeVars) (val : Expression) :
    dispatchKey vars val "Py_ENABLE_SHARED" =
      .ok { vars with py_enable_shared := getBool val } := rfl

/-- Evaluation of the key dispatch at the key Py_REF_DEBUG. -/
theorem dispatchKey_eval_py_ref_debug (vars : BuildTimeVars) (val : Expression) :
    dispatchKey vars val "Py_REF_DEBUG" =
      .ok { vars with py_ref_debug := getBool val } := rfl

/-- Evaluation of the key dispatch at the key Py_TRACE_REFS. -/
theorem dispatchKey_eval_py_trace_refs (vars : BuildTimeVars) (val : Expression) :
    dispatchKey vars val "Py_TRACE_REFS" =
      .ok { vars with py_trace_refs := getBool val } := rfl

/-- Evaluation of the key dispatch at the key SOABI. -/
theorem dispatchKey_eval_soabi (vars : BuildTimeVars) (val : Expression) :
    dispatchKey vars val "SOABI" =
      .ok { vars with soabi := (getString val).getD "" } := rfl

/-- Evaluation of the key dispatch at the key SHLIB_SUFFIX. -/
theorem dispatchKey_eval_shlib_suffix (vars : BuildTimeVars) (val : Expression) :
    dispatchKey vars val "SHLIB_SUFFIX" =
      .ok { vars with shlib_suffix := (getString val).getD "" } := rfl

/-- Evaluation of the key dispatch at the key SIZEOF_VOID_P. -/
theorem dispatchKey_eval_sizeof (vars : BuildTimeVars) (val : Expression) :
    dispatchKey vars val "SIZEOF_VOID_P" =
      match getNumber val with
      | some n => .ok { vars with size_of_void_p := (n % (2 ^ 32 : Int)).toNat }
      | none => .error (.KeyError "SIZEOF_VOID_P") := rfl

/-- Evaluation of the key dispatch at the key VERSION. -/
theorem dispatchKey_eval_version (vars : BuildTimeVars) (val : Expression) :
    dispatchKey vars val "VERSION" =
      match getString val with
      | some s => .ok { vars with version := s }
      | none => .error (.KeyError "VERSION") := rfl

/-- Characterization of the key dispatch: it either succeeds with a record
whose pointer-width field is unchanged, or the key is SIZEOF_VOID_P, or it
fails with the VERSION key error. -/
theorem dispatchKey_result (vars : BuildTimeVars) (val : Expression) (k : String) :
    (∃ upd : BuildTimeVars, dispatchKey vars val k = .ok upd ∧
      upd.size_of_void_p = vars.size_of_void_p) ∨
    k = "SIZEOF_VOID_P" ∨
    dispatchKey vars val k = .error (.KeyError "VERSION") := by
  by_cases hup : k ∈ recognizedKeys
  · simp only [recognizedKeys, List.mem_cons, List.not_mem_nil, or_false] at hup
    rcases hup with rfl|rfl|rfl|rfl|rfl|rfl|rfl|rfl|rfl|rfl|rfl|rfl|rfl|rfl|rfl|rfl|rfl|rfl|rfl|rfl
    · exact Or.inl ⟨_, dispatchKey_eval_abiflags vars val, rfl⟩
    · exact Or.inl ⟨_, dispatchKey_eval_count_allocs vars val, rfl⟩
    · exact Or.inl ⟨_, dispatchKey_eval_cflags vars val, rfl⟩
    · exact Or.inl ⟨_, dispatchKey_eval_libpl vars val, rfl⟩
    · exact Or.inl ⟨_, dispatchKey_eval_ext_suffix vars val, rfl⟩
    · exact Or.inl ⟨_, dispatchKey_eval_execPre vars val, rfl⟩
    · exact Or.inl ⟨_, dispatchKey_eval_includedir vars val, rfl⟩
    · exact Or.inl ⟨_, dispatchKey_eval_libdir vars val, rfl⟩
    · exact Or.inl ⟨_, dispatchKey_eval_libs vars val, rfl⟩
    · exact Or.inl ⟨_, dispatchKey_eval_ldflags vars val, rfl⟩
    · exact Or.inl ⟨_, dispatchKey_eval_ldversion vars val, rfl⟩
    · exact Or.inl ⟨_, dispatchKey_eval_pre vars val, rfl⟩
    · exact Or.inl ⟨_, dispatchKey_eval_py_debug vars val, rfl⟩
    · exact Or.inl ⟨_, dispatchKey_eval_py_enable_shared vars val, rfl⟩
    · exact Or.inl ⟨_, dispatchKey_eval_py_ref_debug vars val, rfl⟩
    · exact Or.inl ⟨_, dispatchKey_eval_py_trace_refs vars val, rfl⟩
    · exact Or.inl ⟨_, dispatchKey_eval_soabi vars val, rfl⟩
    · exact Or.inl ⟨_, dispatchKey_eval_shlib_suffix vars val, rfl⟩
    · exact Or.inr (Or.inl rfl)
    · cases hgs : getString val with
      | some s =>
        exact Or.inl ⟨{ vars with version := s },
          by rw [dispatchKey_eval_version, hgs], rfl⟩
      | none =>
        exact Or.inr (Or.inr (by rw [dispatchKey_eval_version, hgs]))
  · exact Or.inl ⟨vars, dispatchKey_unrec vars val k hup, rfl⟩

/-- A dispatch on a key other than SIZEOF_VOID_P never changes the
`size_of_void_p` field. -/
theorem dispatchKey_sizeof_preserved (vars : BuildTimeVars) (val : Expression)
    (k : String) (v' : BuildTimeVars) (hk : ¬ k = "SIZEOF_VOID_P")
    (hv : dispatchKey vars val k = .ok v') :
    v'.size_of_void_p = vars.size_of_void_p := by
  rcases dispatchKey_result vars val k with ⟨upd, heq, hsz⟩ | hks | herr
  · rw [heq] at hv
    injection hv with h'
    rw [← h']
    exact hsz
  · exact absurd hks hk
  · rw [herr] at hv
    exact Except.noConfusion hv

/-- A dispatch on a key other than SIZEOF_VOID_P never raises the
`SIZEOF_VOID_P` key error. -/
theorem dispatchKey_no_sizeof_error (vars : BuildTimeVars) (val : Expression)
    (k : String) (hk : ¬ k = "SIZEOF_VOID_P") :
    dispatchKey vars val k ≠ .error (.KeyError "SIZEOF_VOID_P") := by
  intro hc
  rcases dispatchKey_result vars val k with ⟨upd, heq, hsz⟩ | hks | herr
  · rw [heq] at hc
    exact Except.noConfusion hc
  · exact absurd hks hk
  · rw [herr] at hc
    injection hc with h'
    injection h' with h''
    exact absurd h'' (by decide)

/-- A list of entries none of which carries the key SIZEOF_VOID_P can
neither raise the `SIZEOF_VOID_P` key error nor change the
`size_of_void_p` field. -/
theorem processEntries_sizeof_stable (vars : BuildTimeVars)
    (elements : List (Option Expression × Expression))
    (h : ∀ e ∈ elements, e.1.bind getString ≠ some "SIZEOF_VOID_P") :
    processEntries vars elements ≠ .error (.KeyError "SIZEOF_VOID_P") ∧
    ∀ v', processEntries vars elements = .ok v' →
      v'.size_of_void_p = vars.size_of_void_p := by
  induction elements generalizing vars with
  | nil =>
    simp only [processEntries]
    exact ⟨fun hc => Except.noConfusion hc,
      fun v' hv => by injection hv with h'; subst h'; rfl⟩
  | cons e rest ih =>
    have he := h e (by simp)
    simp only [processEntries]
    cases hpe : processEntry vars e with
    | error err =>
      refine ⟨fun hc => ?_, fun v' hv => Except.noConfusion hv⟩
      injection hc with h'
      subst h'
      cases hbk : e.1.bind getString with
      | none =>
        rw [processEntry_none vars e hbk] at hpe
        exact Except.noConfusion hpe
      | some k =>
        rw [processEntry_some vars e k hbk] at hpe
        have hk : ¬ k = "SIZEOF_VOID_P" := fun heq => he (by rw [hbk, heq])
        exact dispatchKey_no_sizeof_error vars e.2 k hk hpe
    | ok v =>
      obtain ⟨ih1, ih2⟩ := ih v (fun x hx => h x (by simp [hx]))
      refine ⟨ih1, fun v' hv => ?_⟩
      rw [ih2 v' hv]
      cases hbk : e.1.bind getString with
      | none =>
        rw [processEntry_none vars e hbk] at hpe
        injection hpe with h'
        rw [← h']
      | some k =>
        rw [processEntry_some vars e k hbk] at hpe
        have hk : ¬ k = "SIZEOF_VOID_P" := fun heq => he (by rw [hbk, heq])
        exact dispatchKey_sizeof_preserved vars e.2 k v hk hpe

/-- A non-target statement (anything but a dict assignment to
`build_time_vars`) either leaves the record unchanged or raises
`MissingBuildTimeVars` (the empty-target-list case). -/
theorem processStmt_not_target (vars : BuildTimeVars) (s : Statement)
    (h : isTargetAssign s = false) :
    processStmt vars s = .ok vars ∨
    processStmt vars s = .error .MissingBuildTimeVars := by
  cases s with
  | other => exact Or.inl rfl
  | assign targets value =>
    cases targets with
    | nil => exact Or.inr rfl
    | cons t ts =>
      cases t with
      | identifier name =>
        by_cases hn : name = "build_time_vars"
        · subst hn
          cases value with
          | dict elements => exact Bool.noConfusion h
          | identifier n2 => exact Or.inl rfl
          | number v2 => exact Or.inl rfl
          | str sg => exact Or.inl rfl
          | binop a b => exact Or.inl rfl
          | unop a => exact Or.inl rfl
          | noneLiteral => exact Or.inl rfl
        · refine Or.inl ?_
          simp [processStmt, hn]
      | number v2 => exact Or.inl rfl
      | str sg => exact Or.inl rfl
      | dict els => exact Or.inl rfl
      | binop a b => exact Or.inl rfl
      | unop a => exact Or.inl rfl
      | noneLiteral => exact Or.inl rfl

/-- A statement scan over non-target statements either keeps the record or
raises `MissingBuildTimeVars`. -/
theorem processStmts_no_target (vars : BuildTimeVars) (stmts : List Statement)
    (h : ∀ s ∈ stmts, isTargetAssign s = false) :
    processStmts vars stmts = .ok vars ∨
    processStmts vars stmts = .error .MissingBuildTimeVars := by
  induction stmts with
  | nil => exact Or.inl rfl
  | cons s rest ih =>
    simp only [processStmts]
    rcases processStmt_not_target vars s (h s (by simp)) with hps | hps
    · rw [hps]
      exact ih (fun x hx => h x (by simp [hx]))
    · rw [hps]
      exact Or.inr rfl

/-- Claim C1 counterexample: a document whose target mapping has a valid
non-empty VERSION entry and no SIZEOF_VOID_P key decodes successfully (with
pointer width 0), where the claim asserts the decode fails. -/
theorem claimC1_counterexample :
    SysConfigData.parse docVersionOnly =
      .ok { build_time_vars := { BuildTimeVars.default with version := "3.8" } } ∧
    ({ BuildTimeVars.default with version := "3.8" } : BuildTimeVars).size_of_void_p = 0 :=
  ⟨rfl, rfl⟩

/-- Claim C1 (amended): absence of the SIZEOF_VOID_P key is not fatal.  A
scan over entries none of which carries the key SIZEOF_VOID_P never raises
the key error naming SIZEOF_VOID_P and leaves the pointer-width field at its
previous (default) value; in particular a mapping holding only a valid
non-empty VERSION entry decodes successfully, with pointer width 0. -/
theorem claimC1_theorem :
    (∀ (vars : BuildTimeVars) (elements : List (Option Expression × Expression)),
      (∀ e ∈ elements, e.1.bind getString ≠ some "SIZEOF_VOID_P") →
      processEntries vars elements ≠ .error (.KeyError "SIZEOF_VOID_P") ∧
      ∀ v', processEntries vars elements = .ok v' →
        v'.size_of_void_p = vars.size_of_void_p) ∧
    (∀ v : String, v ≠ "" →
      SysConfigData.parse [btAssign [(strKey "VERSION", .str (.constant v))]] =
        .ok { build_time_vars := { BuildTimeVars.default with version := v } }) := by
  refine ⟨processEntries_sizeof_stable, fun v hv => ?_⟩
  have h1 : v.isEmpty = false := by
    cases hb : v.isEmpty
    · rfl
    · exact absurd ((String.isEmpty_iff v).mp hb) hv
  have hstep : processEntries BuildTimeVars.default
      [(strKey "VERSION", .str (.constant v))] =
      .ok { BuildTimeVars.default with version := v } := by
    simp only [processEntries, processEntry_version, getString]
  rw [parse_single_btAssign, hstep]
  simp [h1]

/-- Claim C1 witness: the amended statement at concrete inputs. -/
theorem claimC1_witness :
    SysConfigData.parse [btAssign [(strKey "VERSION", .str (.constant "3.9"))]] =
      .ok { build_time_vars := { BuildTimeVars.default with version := "3.9" } } :=
  claimC1_theorem.2 "3.9" (by decide)

/-- Claim C2 counterexample: in a document with two target assignments, the
key ABIFLAGS appearing only in the second assignment lands in the decoded
record, where the claim asserts later assignments are not merged. -/
theorem claimC2_counterexample :
    SysConfigData.parse docReassign =
      .ok { build_time_vars :=
        { BuildTimeVars.default with version := "3.8", abiflags := "m" } } ∧
    ("m" : String) ≠ "" := ⟨rfl, by decide⟩

/-- Claim C2 (amended): every top-level assignment of a dict literal to
`build_time_vars` is processed in source order; decoding two successive
target assignments equals decoding one target assignment carrying the
concatenation of the two entry lists, so keys of later reassignments are
merged into the result (later entries overwriting earlier ones). -/
theorem claimC2_theorem (l₁ l₂ : List (Option Expression × Expression)) :
    SysConfigData.parse [btAssign l₁, btAssign l₂] =
      SysConfigData.parse [btAssign (l₁ ++ l₂)] := by
  have h : processStmts BuildTimeVars.default [btAssign l₁, btAssign l₂] =
      processStmts BuildTimeVars.default [btAssign (l₁ ++ l₂)] := by
    simp only [processStmts, processStmt_btAssign, processEntries_append]
    cases processEntries BuildTimeVars.default l₁ with
    | ok v => cases processEntries v l₂ <;> rfl
    | error e => rfl
  unfold SysConfigData.parse
  rw [h]

/-- Claim C3 counterexample: a target mapping that never yields a version
string (its VERSION value is the integer 1) decodes to the VERSION key
error, not to `MissingBuildTimeVars` as the claim asserts. -/
theorem claimC3_counterexample :
    SysConfigData.parse docVersionNotString = .error (.KeyError "VERSION") ∧
    Error.KeyError "VERSION" ≠ Error.MissingBuildTimeVars := ⟨rfl, by decide⟩

/-- Claim C3 (amended): an input with no top-level dict assignment to
`build_time_vars` decodes to the `MissingBuildTimeVars` error; an input whose
scan completes without a key error but never sets `version` to a non-empty
string also decodes to the `MissingBuildTimeVars` error.  (A present VERSION
or SIZEOF_VOID_P entry that fails classification aborts the scan earlier
with a `KeyError` naming that key, so those inputs are excluded from the
second part.) -/
theorem claimC3_theorem (stmts : List Statement) :
    ((∀ s ∈ stmts, isTargetAssign s = false) →
      SysConfigData.parse stmts = .error .MissingBuildTimeVars) ∧
    (∀ vars, processStmts BuildTimeVars.default stmts = .ok vars →
      vars.version = "" →
      SysConfigData.parse stmts = .error .MissingBuildTimeVars) := by
  constructor
  · intro h
    unfold SysConfigData.parse
    rcases processStmts_no_target BuildTimeVars.default stmts h with hps | hps
    · rw [hps]
      rfl
    · rw [hps]
  · intro vars hps hv
    unfold SysConfigData.parse
    rw [hps]
    have he : vars.version.isEmpty = true := (String.isEmpty_iff vars.version).mpr hv
    simp [he]

/-- Claim C3 witness: the amended statement at concrete inputs, one with no
target assignment and one whose target mapping never yields a version. -/
theorem claimC3_witness :
    SysConfigData.parse [Statement.assign [.identifier "i"] (.number (.integer 0))] =
      .error .MissingBuildTimeVars ∧
    SysConfigData.parse [btAssign [(strKey "ABIFLAGS", .str (.constant "m"))]] =
      .error .MissingBuildTimeVars :=
  ⟨(claimC3_theorem _).1 (by decide),
   (claimC3_theorem _).2 { BuildTimeVars.default with abiflags := "m" } rfl rfl⟩

/-- Claim C4: on every successful decode the `version` field of the
resulting record is a non-empty string. -/
theorem claimC4_theorem (stmts : List Statement) (cfg : SysConfigData)
    (h : SysConfigData.parse stmts = .ok cfg) :
    cfg.build_time_vars.version ≠ "" := by
  unfold SysConfigData.parse at h
  split at h
  · exact Except.noConfusion h
  · split at h
    · exact Except.noConfusion h
    · injection h with h'
      subst h'
      intro hv
      rename_i vars heq hne
      exact hne ((String.isEmpty_iff vars.version).mpr hv)

/-- Claim C4 witness: the invariant instantiated on a concrete successful
decode. -/
theorem claimC4_witness :
    ({ build_time_vars := { BuildTimeVars.default with version := "3.8" } } :
      SysConfigData).build_time_vars.version ≠ "" :=
  claimC4_theorem docVersionOnly _ rfl

/-- Claim C5 counterexample: with a non-string VERSION entry placed before
the invalid SIZEOF_VOID_P entry, the decode fails with the VERSION key
error, not the SIZEOF_VOID_P one, refuting the unconditional general form
of the claim. -/
theorem claimC5_counterexample :
    SysConfigData.parse [btAssign
      [(strKey "VERSION", .number (.integer 1)),
       (strKey "SIZEOF_VOID_P", .str (.constant ""))]] =
      .error (.KeyError "VERSION") ∧
    Error.KeyError "VERSION" ≠ Error.KeyError "SIZEOF_VOID_P" := ⟨rfl, by decide⟩

/-- Claim C5 (amended): when the target mapping holds a VERSION string entry
followed by a SIZEOF_VOID_P entry whose value is not an integer literal, the
decode fails with the key error naming SIZEOF_VOID_P.  (If an entry before
it already fails — for instance an invalid VERSION entry — the scan aborts
with that earlier key error instead; the counterexample shows this.) -/
theorem claimC5_theorem (s : String) (v : Expression) (h : getNumber v = none) :
    SysConfigData.parse [btAssign
      [(strKey "VERSION", .str (.constant s)), (strKey "SIZEOF_VOID_P", v)]] =
      .error (.KeyError "SIZEOF_VOID_P") := by
  rw [parse_single_btAssign]
  have h1 : processEntry BuildTimeVars.default
      (strKey "VERSION", .str (.constant s)) =
      .ok { BuildTimeVars.default with version := s } := rfl
  have h2 : processEntry { BuildTimeVars.default with version := s }
      (strKey "SIZEOF_VOID_P", v) = .error (.KeyError "SIZEOF_VOID_P") := by
    rw [processEntry_some { BuildTimeVars.default with version := s }
      (strKey "SIZEOF_VOID_P", v) "SIZEOF_VOID_P" rfl, dispatchKey_eval_sizeof, h]
  simp only [processEntries, h1, h2]

/-- Claim C5 witness: the exact input of the claim, a VERSION string and a
SIZEOF_VOID_P entry holding an empty string. -/
theorem claimC5_witness :
    SysConfigData.parse [btAssign
      [(strKey "VERSION", .str (.constant "3.8")),
       (strKey "SIZEOF_VOID_P", .str (.constant ""))]] =
      .error (.KeyError "SIZEOF_VOID_P") :=
  claimC5_theorem "3.8" (.str (.constant "")) rfl


/-- Claim C6: the flag classifier returns true exactly when the integer
classifier returns the value 1; absence and every other integer value
(including 0 and negative values) give false. -/
theorem claimC6_theorem (e : Expression) :
    getBool e = true ↔ getNumber e = some 1 := by
  unfold getBool
  cases h : getNumber e with
  | none => simp
  | some n => simp [beq_iff_eq]

/-- Claim C7: the integer classifier succeeds exactly on bare integer
literals whose value fits the signed 32-bit range, and returns absent for
binary operations (no arithmetic evaluation, so a literal sum yields
absent), unary compounds such as negated literals, floating-point literals,
complex literals and every non-numeric node. -/
theorem claimC7_theorem :
    (∀ (e : Expression) (n : Int), getNumber e = some n ↔
      (e = .number (.integer n) ∧ -(2 ^ 31) ≤ n ∧ n < 2 ^ 31)) ∧
    (∀ a b : Expression, getNumber (.binop a b) = none) ∧
    (∀ a : Expression, getNumber (.unop a) = none) ∧
    getNumber (.number .float) = none ∧
    getNumber (.number .complex) = none := by
  refine ⟨?_, fun a b => rfl, fun a => rfl, rfl, rfl⟩
  intro e n
  constructor
  · intro h
    cases e with
    | number val =>
      cases val with
      | integer v =>
        simp only [getNumber] at h
        split_ifs at h with hb
        all_goals first
          | exact Option.noConfusion h
          | (injection h with h'
             subst h'
             exact ⟨rfl, hb.1, hb.2⟩)
      | float => exact Option.noConfusion h
      | complex => exact Option.noConfusion h
    | identifier name => exact Option.noConfusion h
    | str sg => exact Option.noConfusion h
    | dict els => exact Option.noConfusion h
    | binop a b => exact Option.noConfusion h
    | unop a => exact Option.noConfusion h
    | noneLiteral => exact Option.noConfusion h
  · rintro ⟨rfl, h1, h2⟩
    show (if -(2 ^ 31) ≤ n ∧ n < 2 ^ 31 then some n else none) = some n
    rw [if_pos ⟨h1, h2⟩]

/-- Claim C8: a string value given as adjacent fragments decodes to the
exact concatenation of its constant texts in source order with no inserted
separator; a fragment that is not a plain constant (an interpolated fragment
or a nested group) is skipped without affecting the rest. -/
theorem claimC8_theorem :
    (∀ a b : String,
      getString (.str (.joined [.constant a, .constant b])) = some (a ++ b)) ∧
    (∀ a : String, getString (.str (.constant a)) = some a) ∧
    (∀ (vs ws : List StringGroup) (e : Expression),
      getString (.str (.joined (vs ++ .formattedValue e :: ws))) =
        getString (.str (.joined (vs ++ ws)))) ∧
    (∀ vs ws us : List StringGroup,
      getString (.str (.joined (vs ++ .joined us :: ws))) =
        getString (.str (.joined (vs ++ ws)))) := by
  refine ⟨fun a b => ?_, fun a => rfl, fun vs ws e => ?_, fun vs ws us => ?_⟩
  · show some (("" ++ a) ++ b) = some (a ++ b)
    rw [String.empty_append]
  · simp [getString, List.foldl_append]
  · simp [getString, List.foldl_append]

/-- An entry list made only of entries with unrecognized string keys leaves
the record unchanged. -/
theorem processEntries_unrec (vars : BuildTimeVars)
    (us : List (Option Expression × Expression))
    (h : ∀ u ∈ us, ∃ k, u.1.bind getString = some k ∧ k ∉ recognizedKeys) :
    processEntries vars us = .ok vars := by
  induction us with
  | nil => rfl
  | cons u rest ih =>
    obtain ⟨k, hbind, hk⟩ := h u (by simp)
    simp only [processEntries, processEntry_some vars u k hbind,
      dispatchKey_unrec vars u.2 k hk]
    exact ih (fun x hx => h x (by simp [hx]))

/-- Claim C9: entries whose keys classify to strings outside the recognized
key list (matching is exact and case-sensitive) never change the decode:
inserting any block of such entries anywhere in the target mapping yields
the same result as decoding the mapping without them. -/
theorem claimC9_theorem (l₁ l₂ us : List (Option Expression × Expression))
    (h : ∀ u ∈ us, ∃ k, u.1.bind getString = some k ∧ k ∉ recognizedKeys) :
    SysConfigData.parse [btAssign (l₁ ++ us ++ l₂)] =
      SysConfigData.parse [btAssign (l₁ ++ l₂)] := by
  have key : processEntries BuildTimeVars.default (l₁ ++ (us ++ l₂)) =
      processEntries BuildTimeVars.default (l₁ ++ l₂) := by
    rw [processEntries_append BuildTimeVars.default l₁ (us ++ l₂),
      processEntries_append BuildTimeVars.default l₁ l₂]
    cases hpe : processEntries BuildTimeVars.default l₁ with
    | error e => rfl
    | ok v =>
      show processEntries v (us ++ l₂) = processEntries v l₂
      rw [processEntries_append v us l₂, processEntries_unrec v us h]
  rw [parse_single_btAssign, parse_single_btAssign, List.append_assoc, key]

/-- Claim C9 witness: a mapping extended with the unrecognized key
PYTHONFRAMEWORK decodes to the same record as without it. -/
theorem claimC9_witness :
    SysConfigData.parse [btAssign
      ([(strKey "VERSION", .str (.constant "3.8"))] ++
       [(strKey "PYTHONFRAMEWORK", .str (.constant "x"))] ++ [])] =
    SysConfigData.parse [btAssign
      ([(strKey "VERSION", .str (.constant "3.8"))] ++ [])] :=
  claimC9_theorem _ _ _ (fun u hu => by
    simp only [List.mem_singleton] at hu
    subst hu
    exact ⟨"PYTHONFRAMEWORK", rfl, by decide⟩)

/-- Claim C10: version accessors can panic on a successfully decoded record
(the panic of the Rust `unwrap` is embedded as `none`): the record decoded
from a mapping whose VERSION is the non-numeric text A.B yields `none` for
both accessors, while numeric segments yield values; and any value returned
by the major accessor fits in 32 bits, matching the Rust `u32` parse. -/
theorem claimC10_theorem :
    PythonConfig.parse docVersionAB = .ok cfgVersionAB ∧
    cfgVersionAB.version_major = none ∧
    cfgVersionAB.version_minor = none ∧
    cfgVersion38.version_major = some 3 ∧
    cfgVersion38.version_minor = some 8 ∧
    (∀ (c : PythonConfig) (n : Nat),
      PythonConfig.version_major c = some n → n < 2 ^ 32) := by
  refine ⟨rfl, rfl, rfl, rfl, rfl, ?_⟩
  intro c n h
  unfold PythonConfig.version_major at h
  cases hd : (splitChar '.' (PythonConfig.version c)).head? with
  | none =>
    rw [hd] at h
    exact Option.noConfusion h
  | some s =>
    rw [hd, Option.some_bind] at h
    simp only [parseU32] at h
    split_ifs at h with h1 h2
    all_goals first
      | exact Option.noConfusion h
      | (injection h with h'
         rw [← h']
         exact h2)

/-- Claim C10 witness: the bound component applied at a concrete record. -/
theorem claimC10_witness : (3 : Nat) < 2 ^ 32 :=
  claimC10_theorem.2.2.2.2.2 cfgVersion38 3 rfl

end PyConfig
